import Mathlib

/-!
Verification of the poc-geo-ranks ranking tool: a shallow embedding of its
core pipeline (ranking state → knowledge graph → property graph → GRC-20
operation batch) together with proofs of the specified properties.

Scores are JS numbers, modelled as exact rationals; `Math.round` is modelled
as floor (x + 1/2), matching its round-half-up semantics.
-/

section

set_option allowUnsafeReducibility true
attribute [local semireducible] Rat.add Rat.mul Rat.inv Rat.sub Rat.floor Rat.ceil
set_option maxRecDepth 40000

/-- Models JS `Math.round`: round half toward positive infinity. -/
def jsRound (q : ℚ) : ℤ := Rat.floor (q + 1/2)

/-- Models `Math.round(x * 100) / 100`: round to two decimal places. -/
def round2 (q : ℚ) : ℚ := (jsRound (q * 100) : ℚ) / 100

/-- Models `Math.min(...xs)` on a non-empty array (callers guard emptiness). -/
def jsMin : List ℚ → ℚ
  | [] => 0
  | x :: xs => xs.foldl min x

/-- Lookup in a JS `Map` modelled as an insertion-ordered association list. -/
def mapLookup (m : List (String × β)) (k : String) : Option β :=
  match m with
  | [] => none
  | (k', v) :: rest => if k' = k then some v else mapLookup rest k

/-- Models `Map.set`: update an existing key in place, else append. -/
def mapSet (m : List (String × β)) (k : String) (v : β) : List (String × β) :=
  match m with
  | [] => [(k, v)]
  | (k', v') :: rest => if k' = k then (k, v) :: rest else (k', v') :: mapSet rest k v

/-- Models `Map.delete`. -/
def mapDelete (m : List (String × β)) (k : String) : List (String × β) :=
  m.filter (fun p => p.1 ≠ k)

/-- Models `Set.add` via `new Set([...old, x])`: append when absent. -/
def setAdd (s : List String) (x : String) : List String :=
  if x ∈ s then s else s ++ [x]

/-- Models `Array.prototype.findIndex`, as an option over the index. -/
def findIdxA (p : α → Bool) : List α → Option ℕ
  | [] => none
  | x :: xs => if p x then some 0 else (findIdxA p xs).map (· + 1)

/-- Models `Array.prototype.findIndex` returning -1 when not found. -/
def jsFindIndex (p : α → Bool) (l : List α) : ℤ :=
  match findIdxA p l with
  | some n => (n : ℤ)
  | none => -1

/-- Models JS array indexing `a[i]` with an integer index (undefined when out of range). -/
def jsGet? (l : List α) (i : ℤ) : Option α :=
  if i < 0 then none else l.get? i.toNat

/-- Item catalog record (types.ts `ItemEntity`). -/
structure Item where
  id : String
  name : String
  emoji : String
deriving DecidableEq, Repr

/-- The ranking container (types.ts `TierListEntity` / `RankListEntity`);
its `rank_type` field is fixed to "weighted_rank". -/
structure RankList where
  id : String
  name : String
deriving DecidableEq, Repr

/-- Structural view of a knowledge-graph entity: the property-graph converter
dispatches on the presence of `rank_type` / `emoji` fields, so entities are
modelled with those fields optional. -/
structure Entity where
  id : String
  name : String
  emoji : Option String := none
  rank_type : Option String := none
deriving DecidableEq, Repr

def Item.toEntity (it : Item) : Entity :=
  { id := it.id, name := it.name, emoji := some it.emoji, rank_type := none }

def RankList.toEntity (rl : RankList) : Entity :=
  { id := rl.id, name := rl.name, emoji := none, rank_type := some "weighted_rank" }

/-- types.ts `Relation`: rank-list → item edge carrying a score. -/
structure Relation where
  id : String
  from' : String
  to' : String
  score : ℚ
deriving DecidableEq, Repr

/-- types.ts `KnowledgeGraph`. -/
structure KnowledgeGraph where
  entities : List Entity
  relations : List Relation
deriving DecidableEq, Repr

/-- A JS property value as found in the property graph (string, number or boolean). -/
inductive PValue where
  | str (s : String)
  | num (q : ℚ)
  | bool (b : Bool)
deriving DecidableEq, Repr

/-- types.ts `PropertyGraphEntity`. -/
structure PGEntity where
  id : String
  properties : List (String × PValue)
deriving DecidableEq, Repr

/-- types.ts `PropertyGraphRelation`. -/
structure PGRelation where
  id : String
  from' : String
  to' : String
  properties : List (String × PValue)
deriving DecidableEq, Repr

/-- types.ts `PropertyGraph`. -/
structure PropertyGraph where
  entities : List PGEntity
  relations : List PGRelation
deriving DecidableEq, Repr

/-- Entity projection of `convertToPropertyGraph` (App.tsx 162-182, identical
copies in HomePage.tsx and SliderRankingPage.tsx): rank-list entities keep
name and rank_type, emoji-carrying entities keep name only, anything else
projects to empty properties. -/
def convertEntity (e : Entity) : PGEntity :=
  if e.rank_type = some "weighted_rank" then
    ⟨e.id, [("name", PValue.str e.name), ("rank_type", PValue.str "weighted_rank")]⟩
  else if e.emoji.isSome then
    ⟨e.id, [("name", PValue.str e.name)]⟩
  else
    ⟨e.id, []⟩

/-- Relation projection of `convertToPropertyGraph`: verbatim, score wrapped
in the properties map. -/
def convertRelation (r : Relation) : PGRelation :=
  ⟨r.id, r.from', r.to', [("score", PValue.num r.score)]⟩

/-- App.tsx / HomePage.tsx / SliderRankingPage.tsx `convertToPropertyGraph`. -/
def convertToPropertyGraph (g : KnowledgeGraph) : PropertyGraph :=
  ⟨g.entities.map convertEntity, g.relations.map convertRelation⟩

/-- Relation contents without the (freshly generated) relation id. -/
def relSig (r : Relation) : String × String × ℚ := (r.from', r.to', r.score)

/-- Property-graph relation contents without the relation id. -/
def pgRelSig (r : PGRelation) : String × String × List (String × PValue) :=
  (r.from', r.to', r.properties)

namespace Tier

/-- App.tsx `handleDrop` (lines 123-150): remove any existing relation for the
dragged item, then add one for the target tier (none when dropped to unranked).
The fresh relation id (`crypto.randomUUID()`) is passed in as `freshId`. -/
def handleDrop (tierListId freshId draggedId : String) (targetScore : Option ℚ)
    (g : KnowledgeGraph) : KnowledgeGraph :=
  let newRelations := g.relations.filter (fun r => r.to' ≠ draggedId)
  match targetScore with
  | some s => { g with relations := newRelations ++ [⟨freshId, tierListId, draggedId, s⟩] }
  | none => { g with relations := newRelations }

/-- One drop interaction in tier mode. -/
structure DropCmd where
  freshId : String
  draggedId : String
  targetScore : Option ℚ

/-- A sequence of tier-mode drops, applied in order. -/
def applyDrops (tierListId : String) (g : KnowledgeGraph) : List DropCmd → KnowledgeGraph
  | [] => g
  | c :: rest => applyDrops tierListId (handleDrop tierListId c.freshId c.draggedId c.targetScore g) rest

/-- Number of relations pointing at a given item. -/
def relCount (g : KnowledgeGraph) (itemId : String) : ℕ :=
  (g.relations.filter (fun r => r.to' = itemId)).length

lemma filter_ne_filter_eq (l : List Relation) (d : String) :
    (l.filter (fun r => r.to' ≠ d)).filter (fun r => r.to' = d) = [] := by
  induction l with
  | nil => rfl
  | cons x xs ih =>
    by_cases hx : x.to' = d <;> simp [List.filter_cons, hx, ih]

lemma relCount_handleDrop_le (tid fid d : String) (ts : Option ℚ) (g : KnowledgeGraph)
    (h : ∀ i, relCount g i ≤ 1) : ∀ i, relCount (handleDrop tid fid d ts g) i ≤ 1 := by
  intro i
  have hsub : ∀ i, relCount { g with relations := g.relations.filter (fun r => r.to' ≠ d) } i ≤ 1 := by
    intro j
    calc ((g.relations.filter (fun r => r.to' ≠ d)).filter (fun r => r.to' = j)).length
        ≤ (g.relations.filter (fun r => r.to' = j)).length :=
          ((List.filter_sublist _).filter _).length_le
      _ ≤ 1 := h j
  cases ts with
  | none => exact hsub i
  | some s =>
    by_cases hi : i = d
    · subst hi
      simp only [relCount, handleDrop, List.filter_append, filter_ne_filter_eq]
      simp
    · simp only [relCount, handleDrop, List.filter_append]
      have : ([(⟨fid, tid, d, s⟩ : Relation)].filter (fun r => r.to' = i)) = [] := by
        simp [List.filter_cons, Ne.symm, hi]
      rw [this, List.append_nil]
      exact hsub i

lemma relCount_applyDrops_le (tid : String) :
    ∀ (cmds : List DropCmd) (g : KnowledgeGraph),
      (∀ i, relCount g i ≤ 1) → ∀ i, relCount (applyDrops tid g cmds) i ≤ 1 := by
  intro cmds
  induction cmds with
  | nil => intro g h i; exact h i
  | cons c rest ih =>
    intro g h i
    exact ih _ (relCount_handleDrop_le tid c.freshId c.draggedId c.targetScore g h) i

end Tier

/-- C6: Tier-mode single-tier invariant: after every sequence of drop
operations each item has at most one relation in the graph, and dropping an
item into a tier with score y leaves it with exactly one relation, carrying
score y (any prior relation is removed first). -/
theorem C6_tier_single_tier_invariant :
    (∀ (tid : String) (g : KnowledgeGraph) (cmds : List Tier.DropCmd),
      (∀ i, Tier.relCount g i ≤ 1) → ∀ i, Tier.relCount (Tier.applyDrops tid g cmds) i ≤ 1)
    ∧ (∀ (tid fid d : String) (y : ℚ) (g : KnowledgeGraph),
      (Tier.handleDrop tid fid d (some y) g).relations.filter (fun r => r.to' = d)
        = [⟨fid, tid, d, y⟩]) := by
  constructor
  · intro tid g cmds h i
    exact Tier.relCount_applyDrops_le tid cmds g h i
  · intro tid fid d y g
    simp [Tier.handleDrop, List.filter_append, Tier.filter_ne_filter_eq, List.filter_cons]

/-- Witness for C6 at a concrete interaction: drop item "x" into tier A (5)
then into tier B (4); it ends with exactly the tier-B relation and every item
has at most one relation. -/
theorem C6_witness :
    Tier.relCount
      (Tier.applyDrops "L" ⟨[], []⟩
        [⟨"u1", "x", some 5⟩, ⟨"u2", "x", some 4⟩]) "x" ≤ 1
    ∧ (Tier.handleDrop "L" "u2" "x" (some 4)
        (Tier.handleDrop "L" "u1" "x" (some 5) ⟨[], []⟩)).relations.filter
          (fun r => r.to' = "x") = [⟨"u2", "L", "x", 4⟩] := by
  refine ⟨C6_tier_single_tier_invariant.1 "L" ⟨[], []⟩ _ (by intro i; simp [Tier.relCount]) "x",
    C6_tier_single_tier_invariant.2 "L" "u2" "x" 4 _⟩

/-- C3: the property-graph conversion is a total function; entities project by
structural shape (rank-list keeps name and rank_type, emoji-carrying entities
keep name only with the glyph dropped, anything else projects to empty
properties), and relations project verbatim with the score in the property map. -/
theorem C3_convert_total_projection :
    ∀ g : KnowledgeGraph,
      (convertToPropertyGraph g).entities = g.entities.map convertEntity
      ∧ (convertToPropertyGraph g).relations
          = g.relations.map (fun r => ⟨r.id, r.from', r.to', [("score", PValue.num r.score)]⟩)
      ∧ ∀ e : Entity,
          (e.rank_type = some "weighted_rank" →
            convertEntity e = ⟨e.id, [("name", PValue.str e.name), ("rank_type", PValue.str "weighted_rank")]⟩)
          ∧ (e.rank_type ≠ some "weighted_rank" → e.emoji.isSome →
            convertEntity e = ⟨e.id, [("name", PValue.str e.name)]⟩)
          ∧ (e.rank_type ≠ some "weighted_rank" → e.emoji = none →
            convertEntity e = ⟨e.id, []⟩) := by
  intro g
  refine ⟨rfl, rfl, fun e => ⟨fun h => ?_, fun h1 h2 => ?_, fun h1 h2 => ?_⟩⟩
  · simp [convertEntity, h]
  · simp [convertEntity, h1, h2]
  · simp [convertEntity, h1, h2]

/-- Witness for C3 at concrete entities of all three shapes. -/
theorem C3_witness :
    convertEntity ⟨"L", "Movies", none, some "weighted_rank"⟩
        = ⟨"L", [("name", PValue.str "Movies"), ("rank_type", PValue.str "weighted_rank")]⟩
    ∧ convertEntity ⟨"i1", "Pizza", some "🍕", none⟩
        = ⟨"i1", [("name", PValue.str "Pizza")]⟩
    ∧ convertEntity ⟨"x", "Mystery", none, none⟩ = ⟨"x", []⟩ := by
  refine ⟨(C3_convert_total_projection ⟨[], []⟩).2.2 _ |>.1 (by decide),
    (C3_convert_total_projection ⟨[], []⟩).2.2 _ |>.2.1 (by decide) (by decide),
    (C3_convert_total_projection ⟨[], []⟩).2.2 _ |>.2.2 (by decide) (by decide)⟩

lemma mapLookup_mapSet_self (m : List (String × β)) (k : String) (v : β) :
    mapLookup (mapSet m k v) k = some v := by
  induction m with
  | nil => simp [mapSet, mapLookup]
  | cons p rest ih =>
    obtain ⟨k', v'⟩ := p
    by_cases h : k' = k <;> simp [mapSet, mapLookup, h, ih]

lemma mapLookup_mem (m : List (String × β)) (k : String) (v : β)
    (h : mapLookup m k = some v) : (k, v) ∈ m := by
  induction m with
  | nil => simp [mapLookup] at h
  | cons p rest ih =>
    obtain ⟨k', v'⟩ := p
    by_cases hk : k' = k
    · subst hk
      simp [mapLookup] at h
      simp [h]
    · simp [mapLookup, hk] at h
      exact List.mem_cons_of_mem _ (ih h)

lemma findIdxA_some_sat {p : α → Bool} :
    ∀ {l : List α} {n : ℕ}, findIdxA p l = some n → ∃ x, l.get? n = some x ∧ p x = true := by
  intro l
  induction l with
  | nil => intro n h; simp [findIdxA] at h
  | cons z zs ih =>
    intro n h
    by_cases hz : p z
    · simp [findIdxA, hz] at h
      subst h
      exact ⟨z, rfl, hz⟩
    · simp [findIdxA, hz] at h
      obtain ⟨m, hm, rfl⟩ := h
      obtain ⟨x, hx, hpx⟩ := ih hm
      exact ⟨x, by simpa using hx, hpx⟩

lemma findIdxA_of_get? {f : α → String} :
    ∀ {l : List α} {n : ℕ} {x : α}, (l.map f).Nodup → l.get? n = some x →
      findIdxA (fun y => f y == f x) l = some n := by
  intro l
  induction l with
  | nil => intro n x _ h; simp at h
  | cons z zs ih =>
    intro n x hnd h
    rw [List.map_cons, List.nodup_cons] at hnd
    cases n with
    | zero =>
      simp at h
      subst h
      simp [findIdxA]
    | succ m =>
      simp only [List.get?_cons_succ] at h
      have hx : x ∈ zs := List.get?_mem h
      have hne : f z ≠ f x := fun he => hnd.1 (he ▸ List.mem_map_of_mem f hx)
      have : (f z == f x) = false := by simpa using hne
      simp [findIdxA, this, ih hnd.2 h]

lemma nodup_map_get?_ne {f : α → String} {l : List α} (hnd : (l.map f).Nodup)
    {i j : ℕ} {x y : α} (hi : l.get? i = some x) (hj : l.get? j = some y)
    (hij : i ≠ j) : f x ≠ f y := by
  intro he
  have h1 : findIdxA (fun z => f z == f x) l = some i := findIdxA_of_get? hnd hi
  have h2 : findIdxA (fun z => f z == f y) l = some j := findIdxA_of_get? hnd hj
  rw [he] at h1
  rw [h1] at h2
  exact hij (by injection h2)

namespace Slider

/-- Slider-mode ranking state: per-item scores (1-100 scale) and the set of
ranked item ids (SliderRankingPage.tsx lines 23-26). -/
structure State where
  itemScores : List (String × ℚ)
  rankedItemIds : List String
deriving DecidableEq, Repr

/-- Models `itemScores.get(id) || 50`: JS `||` treats 0 as falsy. -/
def jsOrFifty (o : Option ℚ) : ℚ :=
  match o with
  | some s => if s = 0 then 50 else s
  | none => 50

/-- The comparator key of the slider page's score sort. -/
def scoreKey (scores : List (String × ℚ)) (it : Item) : ℚ :=
  jsOrFifty (mapLookup scores it.id)

/-- Stable descending insertion: an element moves ahead only of strictly
smaller keys, matching the stable JS sort with comparator `(a, b) => scoreB - scoreA`. -/
def insertDesc (key : Item → ℚ) (x : Item) : List Item → List Item
  | [] => [x]
  | y :: ys => if key x ≥ key y then x :: y :: ys else y :: insertDesc key x ys

/-- Stable sort descending by key (models `array.sort((a, b) => keyB - keyA)`). -/
def sortDesc (key : Item → ℚ) : List Item → List Item
  | [] => []
  | x :: xs => insertDesc key x (sortDesc key xs)

/-- SliderRankingPage.tsx `getRankedItems`. -/
def getRankedItems (items : List Item) (st : State) : List Item :=
  items.filter (fun it => it.id ∈ st.rankedItemIds)

/-- The sorted ranked list computed at the top of `handleDropOnItem`. -/
def sortedRanked (items : List Item) (st : State) : List Item :=
  sortDesc (scoreKey st.itemScores) (getRankedItems items st)

/-- SliderRankingPage.tsx `handleDropOnItem` (lines 136-202): midpoint
insertion relative to the drop target in the descending score order. -/
def handleDropOnItem (items : List Item) (dragged target : Item) (st : State) : State :=
  if dragged.id = target.id then st
  else
    let sortedItems := sortedRanked items st
    let draggedIndex := jsFindIndex (fun it => it.id == dragged.id) sortedItems
    let targetIndex := jsFindIndex (fun it => it.id == target.id) sortedItems
    if draggedIndex ≠ -1 ∧ draggedIndex = targetIndex - 1 then st
    else
      let itemAbove := if targetIndex > 0 then jsGet? sortedItems (targetIndex - 1) else none
      let scoreBelow := (mapLookup st.itemScores target.id).getD 50
      match itemAbove with
      | some ia =>
        if ia.id ≠ dragged.id then
          let v := round2 (((mapLookup st.itemScores ia.id).getD 50 + scoreBelow) / 2)
          { itemScores := mapSet st.itemScores dragged.id v,
            rankedItemIds := setAdd st.rankedItemIds dragged.id }
        else st
      | none =>
        let v := round2 ((100 + scoreBelow) / 2)
        { itemScores := mapSet st.itemScores dragged.id v,
          rankedItemIds := setAdd st.rankedItemIds dragged.id }

/-- SliderRankingPage.tsx `handleDropToRanked` (lines 78-105): place at the
bottom, defaulting the score to the midpoint of 1 and the current minimum. -/
def handleDropToRanked (dragged : Item) (st : State) : State :=
  if dragged.id ∈ st.rankedItemIds then st
  else
    let newRankedIds := setAdd st.rankedItemIds dragged.id
    let newScores :=
      match mapLookup st.itemScores dragged.id with
      | some _ => st.itemScores
      | none =>
        let existingScores := st.itemScores.map Prod.snd
        let scoreToAssign := if existingScores.length > 0 then round2 ((1 + jsMin existingScores) / 2) else 1
        mapSet st.itemScores dragged.id scoreToAssign
    { itemScores := newScores, rankedItemIds := newRankedIds }

/-- SliderRankingPage.tsx `buildGraph` relation loop (lines 52-62): one fresh
relation id per ranked item carrying a score. -/
def mkRelations (gen : ℕ → String) (rlId : String) (scores : List (String × ℚ)) :
    ℕ → List String → List Relation
  | _, [] => []
  | k, iid :: rest =>
    match mapLookup scores iid with
    | some s => ⟨gen k, rlId, iid, s⟩ :: mkRelations gen rlId scores (k + 1) rest
    | none => mkRelations gen rlId scores k rest

/-- SliderRankingPage.tsx `buildGraph` (lines 49-68). -/
def buildGraph (gen : ℕ → String) (rankListEntity : RankList) (initialItems : List Item)
    (st : State) : KnowledgeGraph :=
  { entities := rankListEntity.toEntity :: initialItems.map Item.toEntity,
    relations := mkRelations gen rankListEntity.id st.itemScores 0 st.rankedItemIds }

lemma jsFindIndex_some (p : α → Bool) (l : List α) (n : ℕ) (h : findIdxA p l = some n) :
    jsFindIndex p l = (n : ℤ) := by
  simp [jsFindIndex, h]

lemma jsFindIndex_none (p : α → Bool) (l : List α) (h : findIdxA p l = none) :
    jsFindIndex p l = -1 := by
  simp [jsFindIndex, h]

lemma dropOnItem_mid (items : List Item) (st : State) (dragged target ia : Item)
    (i : ℕ) (above below : ℚ)
    (hnd : ((sortedRanked items st).map Item.id).Nodup)
    (hne : dragged.id ≠ target.id)
    (hi : (sortedRanked items st).get? i = some ia)
    (hj : (sortedRanked items st).get? (i + 1) = some target)
    (hia : ia.id ≠ dragged.id)
    (ha : mapLookup st.itemScores ia.id = some above)
    (hb : mapLookup st.itemScores target.id = some below) :
    handleDropOnItem items dragged target st =
      { itemScores := mapSet st.itemScores dragged.id (round2 ((above + below) / 2)),
        rankedItemIds := setAdd st.rankedItemIds dragged.id } := by
  have ht : findIdxA (fun it => it.id == target.id) (sortedRanked items st) = some (i + 1) :=
    findIdxA_of_get? hnd hj
  have hguard : ∀ m, findIdxA (fun it => it.id == dragged.id) (sortedRanked items st) = some m →
      (m : ℤ) ≠ (i : ℤ) := by
    intro m hm hmi
    have hm' : m = i := by exact_mod_cast hmi
    subst hm'
    obtain ⟨x, hx, hpx⟩ := findIdxA_some_sat hm
    rw [hi] at hx
    injection hx with hx
    subst hx
    exact hia (by simpa using hpx)
  have hrest : (if ((i + 1 : ℕ) : ℤ) > 0 then
        jsGet? (sortedRanked items st) (((i + 1 : ℕ) : ℤ) - 1) else none) = some ia := by
    rw [if_pos (by omega)]
    have hcast : ((i + 1 : ℕ) : ℤ) - 1 = (i : ℤ) := by push_cast; ring
    rw [hcast, jsGet?, if_neg (by omega)]
    simpa using hi
  cases hd : findIdxA (fun it => it.id == dragged.id) (sortedRanked items st) with
  | none =>
    simp only [handleDropOnItem, if_neg hne, jsFindIndex_some _ _ _ ht, jsFindIndex_none _ _ hd]
    rw [if_neg (by simp)]
    rw [hrest]
    simp [ha, hb, hia]
  | some m =>
    simp only [handleDropOnItem, if_neg hne, jsFindIndex_some _ _ _ ht, jsFindIndex_some _ _ _ hd]
    rw [if_neg (by
      rintro ⟨-, h2⟩
      push_cast at h2
      exact hguard m hd (by omega))]
    rw [hrest]
    simp [ha, hb, hia]

lemma dropOnItem_top (items : List Item) (st : State) (dragged target : Item)
    (below : ℚ)
    (hne : dragged.id ≠ target.id)
    (h0 : (sortedRanked items st).get? 0 = some target)
    (hb : mapLookup st.itemScores target.id = some below) :
    handleDropOnItem items dragged target st =
      { itemScores := mapSet st.itemScores dragged.id (round2 ((100 + below) / 2)),
        rankedItemIds := setAdd st.rankedItemIds dragged.id } := by
  have ht : findIdxA (fun it => it.id == target.id) (sortedRanked items st) = some 0 := by
    cases hl : sortedRanked items st with
    | nil => rw [hl] at h0; simp at h0
    | cons z zs =>
      rw [hl] at h0
      simp at h0
      subst h0
      simp [findIdxA]
  cases hd : findIdxA (fun it => it.id == dragged.id) (sortedRanked items st) with
  | none =>
    simp only [handleDropOnItem, if_neg hne, jsFindIndex_some _ _ _ ht, jsFindIndex_none _ _ hd]
    rw [if_neg (by simp)]
    rw [if_neg (by omega)]
    simp [hb]
  | some m =>
    simp only [handleDropOnItem, if_neg hne, jsFindIndex_some _ _ _ ht, jsFindIndex_some _ _ _ hd]
    rw [if_neg (by rintro ⟨-, h2⟩; omega)]
    rw [if_neg (by omega)]
    simp [hb]

lemma dropOnItem_noop (items : List Item) (st : State) (dragged target d' : Item) (i : ℕ)
    (hnd : ((sortedRanked items st).map Item.id).Nodup)
    (hi : (sortedRanked items st).get? i = some d')
    (hid : d'.id = dragged.id)
    (hj : (sortedRanked items st).get? (i + 1) = some target) :
    handleDropOnItem items dragged target st = st := by
  have hne : dragged.id ≠ target.id := by
    have h := nodup_map_get?_ne hnd hi hj (by omega)
    rw [hid] at h
    exact h
  have hdr : findIdxA (fun it => it.id == dragged.id) (sortedRanked items st) = some i := by
    have h := findIdxA_of_get? hnd hi
    rw [hid] at h
    exact h
  have ht : findIdxA (fun it => it.id == target.id) (sortedRanked items st) = some (i + 1) :=
    findIdxA_of_get? hnd hj
  simp only [handleDropOnItem, if_neg hne, jsFindIndex_some _ _ _ ht, jsFindIndex_some _ _ _ hdr]
  rw [if_pos ⟨by omega, by push_cast; ring⟩]

lemma dropToRanked_new (dragged : Item) (st : State)
    (hr : dragged.id ∉ st.rankedItemIds)
    (hs : mapLookup st.itemScores dragged.id = none) :
    (handleDropToRanked dragged st).itemScores =
      mapSet st.itemScores dragged.id
        (if (st.itemScores.map Prod.snd).length > 0 then
          round2 ((1 + jsMin (st.itemScores.map Prod.snd)) / 2) else 1) := by
  simp only [handleDropToRanked, if_neg hr, hs]

end Slider

/-- Digit run parser: accumulated value, count of digits consumed, rest. -/
def parseDigits (acc cnt : ℕ) : List Char → ℕ × ℕ × List Char
  | [] => (acc, cnt, [])
  | c :: cs =>
    if c.isDigit then parseDigits (acc * 10 + (c.toNat - 48)) (cnt + 1) cs
    else (acc, cnt, c :: cs)

/-- Unsigned decimal numeral prefix: integer part, optional fraction. -/
def jsParseUnsigned (cs : List Char) : Option ℚ :=
  let (ip, icnt, rest) := parseDigits 0 0 cs
  let (fp, fcnt) :=
    match rest with
    | '.' :: rest2 =>
      let (a, b, _) := parseDigits 0 0 rest2
      (a, b)
    | _ => (0, 0)
  if icnt = 0 ∧ fcnt = 0 then none
  else some ((ip : ℚ) + (fp : ℚ) / (10 : ℚ) ^ fcnt)

/-- Models the JS builtin `parseFloat` on plain decimal numerals (optional
sign, digits, optional fractional part, longest valid prefix); `none` stands
for NaN. Exponent forms are irrelevant to the properties proved, which are
conditioned on this function's result. -/
def jsParseFloat (s : String) : Option ℚ :=
  let cs := s.toList.dropWhile (fun c => c = ' ' ∨ c = '\t' ∨ c = '\n' ∨ c = '\r')
  match cs with
  | '-' :: rest => (jsParseUnsigned rest).map (fun q => -q)
  | '+' :: rest => jsParseUnsigned rest
  | _ => jsParseUnsigned cs

namespace Free

/-- Free-mode ranking state: per-item scores and the set of ranked item ids
(FreeRankingPage, in HomePage.tsx lines 115-118). -/
structure State where
  itemScores : List (String × ℚ)
  rankedItemIds : List String
deriving DecidableEq, Repr

/-- FreeRankingPage `handleDropToRanked` (HomePage.tsx lines 163-176):
place the item with a default score of 0 unless it already has one. -/
def handleDropToRanked (dragged : Item) (st : State) : State :=
  if dragged.id ∈ st.rankedItemIds then st
  else
    { itemScores :=
        match mapLookup st.itemScores dragged.id with
        | some _ => st.itemScores
        | none => mapSet st.itemScores dragged.id 0,
      rankedItemIds := setAdd st.rankedItemIds dragged.id }

/-- FreeRankingPage `handleDropToUnranked` (HomePage.tsx lines 178-192). -/
def handleDropToUnranked (dragged : Item) (st : State) : State :=
  { itemScores := mapDelete st.itemScores dragged.id,
    rankedItemIds := st.rankedItemIds.filter (fun x => x ≠ dragged.id) }

/-- FreeRankingPage `handleScoreChange` (HomePage.tsx lines 194-206): blank
input clears the score; otherwise parse, and overwrite only for a numeric
value that is not NaN and is >= 0. -/
def handleScoreChange (itemId value : String) (st : State) : State :=
  if value = "" then { st with itemScores := mapDelete st.itemScores itemId }
  else
    match jsParseFloat value with
    | some q => if q ≥ 0 then { st with itemScores := mapSet st.itemScores itemId q } else st
    | none => st

/-- FreeRankingPage `handleReset` (HomePage.tsx lines 208-211). -/
def handleReset (_st : State) : State := ⟨[], []⟩

/-- FreeRankingPage `buildGraph` relation loop (HomePage.tsx lines 137-147):
relation only for a defined score that is also >= 0. -/
def mkRelations (gen : ℕ → String) (rlId : String) (scores : List (String × ℚ)) :
    ℕ → List String → List Relation
  | _, [] => []
  | k, iid :: rest =>
    match mapLookup scores iid with
    | some s =>
      if s ≥ 0 then ⟨gen k, rlId, iid, s⟩ :: mkRelations gen rlId scores (k + 1) rest
      else mkRelations gen rlId scores k rest
    | none => mkRelations gen rlId scores k rest

/-- FreeRankingPage `buildGraph` (HomePage.tsx lines 134-153). -/
def buildGraph (gen : ℕ → String) (rankListEntity : RankList) (initialItems : List Item)
    (st : State) : KnowledgeGraph :=
  { entities := rankListEntity.toEntity :: initialItems.map Item.toEntity,
    relations := mkRelations gen rankListEntity.id st.itemScores 0 st.rankedItemIds }

/-- The free-mode mutations reachable from the page. -/
inductive FreeOp where
  | dropToRanked (dragged : Item)
  | dropToUnranked (dragged : Item)
  | scoreChange (itemId value : String)
  | reset

def applyOp (st : State) : FreeOp → State
  | .dropToRanked d => handleDropToRanked d st
  | .dropToUnranked d => handleDropToUnranked d st
  | .scoreChange i v => handleScoreChange i v st
  | .reset => handleReset st

def applyOps (st : State) : List FreeOp → State
  | [] => st
  | op :: rest => applyOps (applyOp st op) rest

/-- All stored free-mode scores are non-negative. -/
def scoresNonneg (st : State) : Prop := ∀ p ∈ st.itemScores, 0 ≤ p.2

lemma mem_mapSet (m : List (String × ℚ)) (k : String) (v : ℚ) :
    ∀ p ∈ mapSet m k v, p = (k, v) ∨ p ∈ m := by
  induction m with
  | nil => intro p hp; simp [mapSet] at hp; simp [hp]
  | cons q rest ih =>
    obtain ⟨k2, v2⟩ := q
    intro p hp
    by_cases hk : k2 = k
    · simp [mapSet, hk] at hp
      rcases hp with h | h
      · exact Or.inl (by simp [h])
      · exact Or.inr (List.mem_cons_of_mem _ h)
    · simp only [mapSet, if_neg hk, List.mem_cons] at hp
      rcases hp with h | h
      · exact Or.inr (by simp [h])
      · rcases ih p h with h2 | h2
        · exact Or.inl h2
        · exact Or.inr (List.mem_cons_of_mem _ h2)

lemma scoresNonneg_applyOp (st : State) (op : FreeOp) (h : scoresNonneg st) :
    scoresNonneg (applyOp st op) := by
  cases op with
  | dropToRanked d =>
    simp only [applyOp, handleDropToRanked]
    by_cases hd : d.id ∈ st.rankedItemIds
    · simpa [hd] using h
    · rw [if_neg hd]
      cases hl : mapLookup st.itemScores d.id with
      | some v => simpa [hl] using h
      | none =>
        simp only [hl]
        intro p hp
        rcases mem_mapSet st.itemScores d.id 0 p hp with h2 | h2
        · simp [h2]
        · exact h p h2
  | dropToUnranked d =>
    intro p hp
    exact h p (List.mem_of_mem_filter hp)
  | scoreChange i v =>
    simp only [applyOp, handleScoreChange]
    by_cases hv : v = ""
    · rw [if_pos hv]
      intro p hp
      exact h p (List.mem_of_mem_filter hp)
    · rw [if_neg hv]
      cases hq : jsParseFloat v with
      | none => exact h
      | some q =>
        by_cases hq0 : q ≥ 0
        · simp only [hq0, if_pos]
          intro p hp
          rcases mem_mapSet st.itemScores i q p hp with h2 | h2
          · rw [h2]; exact hq0
          · exact h p h2
        · simpa [hq0] using h
  | reset => intro p hp; simp [applyOp, handleReset] at hp

/-- Every state reached from the initial empty free-mode state stores only
non-negative scores. -/
lemma scoresNonneg_applyOps : ∀ (ops : List FreeOp) (st : State),
    scoresNonneg st → scoresNonneg (applyOps st ops) := by
  intro ops
  induction ops with
  | nil => intro st h; exact h
  | cons op rest ih => intro st h; exact ih _ (scoresNonneg_applyOp st op h)

end Free

lemma filter_sub_nil (l : List α) (p q : α → Bool) (h : l.filter p = []) :
    (l.filter q).filter p = [] := by
  rw [List.filter_eq_nil_iff] at h ⊢
  intro a ha
  exact h a (List.mem_of_mem_filter ha)

namespace Slider

lemma mkRelations_filter_nil (gen : ℕ → String) (rlId : String)
    (scores : List (String × ℚ)) (iid : String) :
    ∀ (k : ℕ) (l : List String), (mapLookup scores iid = none ∨ iid ∉ l) →
      (mkRelations gen rlId scores k l).filter (fun r => r.to' = iid) = [] := by
  intro k l
  induction l generalizing k with
  | nil => intro _; rfl
  | cons x rest ih =>
    intro h
    have hrest : mapLookup scores iid = none ∨ iid ∉ rest := by
      rcases h with h | h
      · exact Or.inl h
      · exact Or.inr (fun hm => h (List.mem_cons_of_mem _ hm))
    cases hx : mapLookup scores x with
    | none => simpa [mkRelations, hx] using ih k hrest
    | some s =>
      have hxne : ¬(x = iid) := by
        intro he
        rcases h with h | h
        · rw [he] at hx; rw [hx] at h; cases h
        · exact h (he ▸ List.mem_cons_self x rest)
      simpa [mkRelations, hx, List.filter_cons, hxne] using ih (k + 1) hrest

lemma mkRelations_filter_single (gen : ℕ → String) (rlId : String)
    (scores : List (String × ℚ)) (iid : String) (s : ℚ)
    (hs : mapLookup scores iid = some s) :
    ∀ (k : ℕ) (l : List String), l.Nodup → iid ∈ l →
      ((mkRelations gen rlId scores k l).filter (fun r => r.to' = iid)).map relSig
        = [(rlId, iid, s)] := by
  intro k l
  induction l generalizing k with
  | nil => intro _ h; simp at h
  | cons x rest ih =>
    intro hnd hmem
    rw [List.nodup_cons] at hnd
    by_cases hx : x = iid
    · subst hx
      rw [mkRelations, hs]
      simp [List.filter_cons,
        mkRelations_filter_nil gen rlId scores x (k + 1) rest (Or.inr hnd.1), relSig]
    · have hmem' : iid ∈ rest := by
        rcases List.mem_cons.mp hmem with h | h
        · exact absurd h.symm hx
        · exact h
      cases hxl : mapLookup scores x with
      | some s2 =>
        simpa [mkRelations, hxl, List.filter_cons, hx] using ih (k + 1) hnd.2 hmem'
      | none => simpa [mkRelations, hxl] using ih k hnd.2 hmem'

lemma mkRelations_map_eq (rlId : String) (scores : List (String × ℚ)) :
    ∀ (gen1 gen2 : ℕ → String) (k1 k2 : ℕ) (l : List String),
      (mkRelations gen1 rlId scores k1 l).map (fun r => pgRelSig (convertRelation r))
        = (mkRelations gen2 rlId scores k2 l).map (fun r => pgRelSig (convertRelation r)) := by
  intro gen1 gen2 k1 k2 l
  induction l generalizing k1 k2 with
  | nil => rfl
  | cons x rest ih =>
    cases hx : mapLookup scores x with
    | some s =>
      simp only [mkRelations, hx, List.map_cons]
      exact congrArg _ (ih (k1 + 1) (k2 + 1))
    | none =>
      simp only [mkRelations, hx]
      exact ih k1 k2

end Slider

namespace Free

lemma mkRelationsF_filter_nil (gen : ℕ → String) (rlId : String)
    (scores : List (String × ℚ)) (iid : String) :
    ∀ (k : ℕ) (l : List String), (mapLookup scores iid = none ∨ iid ∉ l) →
      (mkRelations gen rlId scores k l).filter (fun r => r.to' = iid) = [] := by
  intro k l
  induction l generalizing k with
  | nil => intro _; rfl
  | cons x rest ih =>
    intro h
    have hrest : mapLookup scores iid = none ∨ iid ∉ rest := by
      rcases h with h | h
      · exact Or.inl h
      · exact Or.inr (fun hm => h (List.mem_cons_of_mem _ hm))
    cases hx : mapLookup scores x with
    | none => simpa [mkRelations, hx] using ih k hrest
    | some s =>
      have hxne : ¬(x = iid) := by
        intro he
        rcases h with h | h
        · rw [he] at hx; rw [hx] at h; cases h
        · exact h (he ▸ List.mem_cons_self x rest)
      by_cases hge : s ≥ 0
      · simpa [mkRelations, hx, hge, List.filter_cons, hxne] using ih (k + 1) hrest
      · simpa [mkRelations, hx, hge] using ih k hrest

lemma mkRelationsF_filter_single (gen : ℕ → String) (rlId : String)
    (scores : List (String × ℚ)) (iid : String) (s : ℚ)
    (hs : mapLookup scores iid = some s) (hge : s ≥ 0) :
    ∀ (k : ℕ) (l : List String), l.Nodup → iid ∈ l →
      ((mkRelations gen rlId scores k l).filter (fun r => r.to' = iid)).map relSig
        = [(rlId, iid, s)] := by
  intro k l
  induction l generalizing k with
  | nil => intro _ h; simp at h
  | cons x rest ih =>
    intro hnd hmem
    rw [List.nodup_cons] at hnd
    by_cases hx : x = iid
    · subst hx
      simp only [mkRelations, hs]
      rw [if_pos hge]
      simp [List.filter_cons,
        mkRelationsF_filter_nil gen rlId scores x (k + 1) rest (Or.inr hnd.1), relSig]
    · have hmem' : iid ∈ rest := by
        rcases List.mem_cons.mp hmem with h | h
        · exact absurd h.symm hx
        · exact h
      cases hxl : mapLookup scores x with
      | some s2 =>
        by_cases hge2 : s2 ≥ 0
        · simpa [mkRelations, hxl, hge2, List.filter_cons, hx] using ih (k + 1) hnd.2 hmem'
        · simpa [mkRelations, hxl, hge2] using ih k hnd.2 hmem'
      | none => simpa [mkRelations, hxl] using ih k hnd.2 hmem'

end Free

namespace Tier

lemma applyDrops_entities (tid : String) :
    ∀ (cmds : List DropCmd) (g : KnowledgeGraph),
      (applyDrops tid g cmds).entities = g.entities := by
  intro cmds
  induction cmds with
  | nil => intro g; rfl
  | cons c rest ih =>
    intro g
    rw [applyDrops, ih]
    cases c.targetScore <;> rfl

lemma applyDrops_no_relation (tid : String) :
    ∀ (cmds : List DropCmd) (g : KnowledgeGraph) (iid : String),
      (∀ c ∈ cmds, c.draggedId ≠ iid) →
      g.relations.filter (fun r => r.to' = iid) = [] →
      (applyDrops tid g cmds).relations.filter (fun r => r.to' = iid) = [] := by
  intro cmds
  induction cmds with
  | nil => intro g iid _ h0; exact h0
  | cons c rest ih =>
    intro g iid hc h0
    rw [applyDrops]
    refine ih _ iid (fun c2 hc2 => hc c2 (List.mem_cons_of_mem _ hc2)) ?_
    have hd : c.draggedId ≠ iid := hc c (List.mem_cons_self _ _)
    cases hts : c.targetScore with
    | none =>
      simp only [handleDrop, hts]
      exact filter_sub_nil _ _ _ h0
    | some y =>
      simp only [handleDrop, hts, List.filter_append]
      rw [filter_sub_nil _ _ _ h0]
      simp [List.filter_cons, hd]

end Tier

/-- C2: every graph build emits exactly one relation (rank-list id, item id,
score) per placed item with a defined score, no relation for unplaced or
score-less items, and the entity list is always the rank list followed by all
items. Slider build, free build (free scores are proven non-negative along
reachable states, see `Free.scoresNonneg_applyOps`), and tier-mode drop
sequences are covered. -/
theorem C2_build_graph_relations :
    (∀ (gen : ℕ → String) (rl : RankList) (items : List Item) (st : Slider.State),
      (Slider.buildGraph gen rl items st).entities = rl.toEntity :: items.map Item.toEntity)
    ∧ (∀ (gen : ℕ → String) (rl : RankList) (items : List Item) (st : Slider.State)
        (iid : String) (s : ℚ),
      st.rankedItemIds.Nodup → iid ∈ st.rankedItemIds →
      mapLookup st.itemScores iid = some s →
      ((Slider.buildGraph gen rl items st).relations.filter (fun r => r.to' = iid)).map relSig
        = [(rl.id, iid, s)])
    ∧ (∀ (gen : ℕ → String) (rl : RankList) (items : List Item) (st : Slider.State)
        (iid : String),
      iid ∉ st.rankedItemIds ∨ mapLookup st.itemScores iid = none →
      (Slider.buildGraph gen rl items st).relations.filter (fun r => r.to' = iid) = [])
    ∧ (∀ (gen : ℕ → String) (rl : RankList) (items : List Item) (st : Free.State),
      (Free.buildGraph gen rl items st).entities = rl.toEntity :: items.map Item.toEntity)
    ∧ (∀ (gen : ℕ → String) (rl : RankList) (items : List Item) (st : Free.State)
        (iid : String) (s : ℚ),
      st.rankedItemIds.Nodup → Free.scoresNonneg st → iid ∈ st.rankedItemIds →
      mapLookup st.itemScores iid = some s →
      ((Free.buildGraph gen rl items st).relations.filter (fun r => r.to' = iid)).map relSig
        = [(rl.id, iid, s)])
    ∧ (∀ (gen : ℕ → String) (rl : RankList) (items : List Item) (st : Free.State)
        (iid : String),
      iid ∉ st.rankedItemIds ∨ mapLookup st.itemScores iid = none →
      (Free.buildGraph gen rl items st).relations.filter (fun r => r.to' = iid) = [])
    ∧ (∀ (tid : String) (rl : RankList) (items : List Item) (cmds : List Tier.DropCmd),
      (Tier.applyDrops tid ⟨rl.toEntity :: items.map Item.toEntity, []⟩ cmds).entities
        = rl.toEntity :: items.map Item.toEntity)
    ∧ (∀ (tid : String) (g : KnowledgeGraph) (cmds : List Tier.DropCmd) (iid : String),
      (∀ c ∈ cmds, c.draggedId ≠ iid) →
      g.relations.filter (fun r => r.to' = iid) = [] →
      (Tier.applyDrops tid g cmds).relations.filter (fun r => r.to' = iid) = []) := by
  refine ⟨fun _ _ _ _ => rfl, ?_, ?_, fun _ _ _ _ => rfl, ?_, ?_, ?_, ?_⟩
  · intro gen rl items st iid s hnd hmem hs
    exact Slider.mkRelations_filter_single gen rl.id st.itemScores iid s hs 0
      st.rankedItemIds hnd hmem
  · intro gen rl items st iid h
    exact Slider.mkRelations_filter_nil gen rl.id st.itemScores iid 0 st.rankedItemIds h.symm
  · intro gen rl items st iid s hnd hnn hmem hs
    have hge : s ≥ 0 := hnn (iid, s) (mapLookup_mem st.itemScores iid s hs)
    exact Free.mkRelationsF_filter_single gen rl.id st.itemScores iid s hs hge 0
      st.rankedItemIds hnd hmem
  · intro gen rl items st iid h
    exact Free.mkRelationsF_filter_nil gen rl.id st.itemScores iid 0 st.rankedItemIds h.symm
  · intro tid rl items cmds
    exact Tier.applyDrops_entities tid cmds _
  · intro tid g cmds iid hc h0
    exact Tier.applyDrops_no_relation tid cmds g iid hc h0

/-- Witness for C2 at concrete states: a placed scored item yields exactly its
relation triple, an unplaced item yields none, and the tier drop sequence
preserves the entity list and creates no relation for untouched items. -/
theorem C2_witness :
    ((Slider.buildGraph (fun n => "r" ++ toString n) ⟨"L", "Movies"⟩
        [⟨"a", "A", "x"⟩] ⟨[("a", 80)], ["a"]⟩).relations.filter
          (fun r => r.to' = "a")).map relSig = [("L", "a", 80)]
    ∧ (Slider.buildGraph (fun n => "r" ++ toString n) ⟨"L", "Movies"⟩
        [⟨"a", "A", "x"⟩, ⟨"b", "B", "x"⟩] ⟨[("a", 80)], ["a"]⟩).relations.filter
          (fun r => r.to' = "b") = []
    ∧ ((Free.buildGraph (fun n => "r" ++ toString n) ⟨"L", "Movies"⟩
        [⟨"a", "A", "x"⟩] ⟨[("a", 7)], ["a"]⟩).relations.filter
          (fun r => r.to' = "a")).map relSig = [("L", "a", 7)]
    ∧ (Tier.applyDrops "L" ⟨[⟨"L", "Movies", none, some "weighted_rank"⟩], []⟩
        [⟨"u1", "a", some 5⟩]).relations.filter (fun r => r.to' = "b") = [] := by
  refine ⟨C2_build_graph_relations.2.1 _ ⟨"L", "Movies"⟩ _ _ "a" 80
      (by decide) (by decide) (by decide),
    C2_build_graph_relations.2.2.1 _ ⟨"L", "Movies"⟩ _ _ "b" (Or.inl (by decide)),
    C2_build_graph_relations.2.2.2.2.1 _ ⟨"L", "Movies"⟩ _ _ "a" 7
      (by decide) (by intro p hp; simp at hp; subst hp; norm_num) (by decide) (by decide),
    C2_build_graph_relations.2.2.2.2.2.2.2 "L" _ _ "b"
      (by intro c hc; simp at hc; subst hc; decide) (by decide)⟩

/-- C9: two invocations of the slider build followed by the property-graph
conversion, on identical inputs, agree on the entity list and on every
relation's from, to, and properties; only the freshly generated relation ids
may differ. -/
theorem C9_build_deterministic_modulo_relation_ids :
    ∀ (gen1 gen2 : ℕ → String) (rl : RankList) (items : List Item) (st : Slider.State),
      (convertToPropertyGraph (Slider.buildGraph gen1 rl items st)).entities
        = (convertToPropertyGraph (Slider.buildGraph gen2 rl items st)).entities
      ∧ (convertToPropertyGraph (Slider.buildGraph gen1 rl items st)).relations.map pgRelSig
        = (convertToPropertyGraph (Slider.buildGraph gen2 rl items st)).relations.map pgRelSig := by
  intro gen1 gen2 rl items st
  refine ⟨rfl, ?_⟩
  simp only [convertToPropertyGraph, Slider.buildGraph, List.map_map]
  exact Slider.mkRelations_map_eq rl.id st.itemScores gen1 gen2 0 0 st.rankedItemIds

namespace GRC20

/-- A prepared operation payload. `Graph.createProperty` / `createEntity` /
`createRelation` of the external `@graphprotocol/grc-20` SDK are modelled as
each returning one operation (as the spec's operation counts assume). -/
inductive OpPayload where
  | createProperty (name dataType : String)
  | createEntity (id : String) (values : List (String × String))
  | createRelation (id fromEntity toEntity relType : String)
      (entityValues : Option (List (String × String)))
deriving DecidableEq, Repr

/-- An operation together with its `_description` string. -/
structure OpD where
  payload : OpPayload
  description : String
deriving DecidableEq, Repr

/-- useGRC20.ts summary counters. -/
structure Summary where
  totalOps : ℕ
  entityOps : ℕ
  propertyOps : ℕ
  relationOps : ℕ
deriving DecidableEq, Repr

/-- useGRC20.ts `GRC20Edit`. -/
structure Edit where
  name : String
  ops : List OpD
deriving DecidableEq, Repr

/-- useGRC20.ts `PreparedGRC20Data`. -/
structure Prepared where
  edit : Edit
  summary : Summary
deriving DecidableEq, Repr

/-- Models the regex test for an ISO-8601 date-time start
(useGRC20.ts line 39). -/
def isIsoDate (s : String) : Bool :=
  match s.toList with
  | a :: b :: c :: d :: '-' :: e :: f :: '-' :: g :: h :: 'T' :: _ =>
    a.isDigit && b.isDigit && c.isDigit && d.isDigit && e.isDigit && f.isDigit
      && g.isDigit && h.isDigit
  | _ => false

/-- useGRC20.ts `getDataType` (lines 34-43). -/
def getDataType : PValue → String
  | .num _ => "NUMBER"
  | .bool _ => "BOOLEAN"
  | .str s => if isIsoDate s then "TIME" else "STRING"

/-- Models JS `String(value)`; exact numeric digit formatting is irrelevant
to the properties proved. -/
def pvToString : PValue → String
  | .str s => s
  | .num q => if q.den = 1 then toString q.num else toString q.num ++ "/" ++ toString q.den
  | .bool b => if b then "true" else "false"

/-- The rank-list test used on property-graph entities
(`'rank_type' in e.properties && e.properties.rank_type === 'weighted_rank'`). -/
def isRankListPG (e : PGEntity) : Bool :=
  match mapLookup e.properties "rank_type" with
  | some (.str s) => s == "weighted_rank"
  | _ => false

/-- The item-entity id-assignment loop (useGRC20.ts lines 112-117); fresh ids
come from the `gen` stream at the running counter. -/
def assignIds (gen : ℕ → String) : ℕ → List (String × String) → List PGEntity →
    List (String × String) × ℕ
  | c, m, [] => (m, c)
  | c, m, e :: rest => assignIds gen (c + 1) (mapSet m e.id (gen c)) rest

/-- The entity-id remapping table as it stands when relations are processed:
item entities first (counter starts at 4, after the four well-known property
ids), then the first rank-list entity if present. -/
def entityIdMapOf (gen : ℕ → String) (g : PropertyGraph) : List (String × String) :=
  let mc := assignIds gen 4 [] (g.entities.filter (fun e => !isRankListPG e))
  match g.entities.find? isRankListPG with
  | some tl => mapSet mc.1 tl.id (gen mc.2)
  | none => mc.1

/-- The property-value loop over the rank-list entity's properties
(useGRC20.ts lines 129-137 with `getOrCreateProperty`, lines 71-89): returns
(values, create-property ops, property op count, next counter). -/
def processProps (gen : ℕ → String) :
    ℕ → List (String × String) → List (String × PValue) →
    List (String × String) × List OpD × ℕ × ℕ
  | c, _, [] => ([], [], 0, c)
  | c, created, (attrName, attrValue) :: rest =>
    let dataType := getDataType attrValue
    let key := attrName ++ ":" ++ dataType
    match mapLookup created key with
    | some pid =>
      let r := processProps gen c created rest
      ((pid, pvToString attrValue) :: r.1, r.2.1, r.2.2.1, r.2.2.2)
    | none =>
      let pid := gen c
      let op : OpD := ⟨.createProperty attrName dataType,
        "Create property \"" ++ attrName ++ "\" with type " ++ dataType⟩
      let r := processProps gen (c + 1) (mapSet created key pid) rest
      ((pid, pvToString attrValue) :: r.1, op :: r.2.1, r.2.2.1 + 1, r.2.2.2)

/-- tier label list used for relation descriptions (useGRC20.ts lines 61-68). -/
def tierMetadata : List (String × ℚ) :=
  [("S", 6), ("A", 5), ("B", 4), ("C", 3), ("D", 2), ("F", 1)]

/-- The `_description` attached to a create-relation op
(useGRC20.ts lines 188-198). -/
def relationDesc (entities : List PGEntity) (toId : String) (score : Option PValue) : String :=
  let itemName :=
    match entities.find? (fun e => e.id == toId) with
    | some e =>
      match mapLookup e.properties "name" with
      | some v => if pvToString v = "" then "Unknown" else pvToString v
      | none => "Unknown"
    | none => "Unknown"
  let scoreText := match score with
    | some v => pvToString v
    | none => "undefined"
  let tierPart :=
    match score with
    | some (.num q) =>
      match (tierMetadata.find? (fun t => t.2 = q)).map Prod.fst with
      | some lbl => lbl
      | none => scoreText
    | _ => scoreText
  "Rank \"" ++ itemName ++ "\" as tier " ++ tierPart ++ " (score: " ++ scoreText ++ ")"

/-- The relation loop (useGRC20.ts lines 159-201): a fresh id is generated
for every relation, then relations with an unmapped endpoint are skipped;
returns (create-relation ops, relation op count, next counter). -/
def processRelations (gen : ℕ → String) (emap : List (String × String))
    (ranksPropertyId scorePropertyId : String) (entities : List PGEntity) :
    ℕ → List PGRelation → List OpD × ℕ × ℕ
  | c, [] => ([], 0, c)
  | c, r :: rest =>
    match mapLookup emap r.from', mapLookup emap r.to' with
    | some fromId, some toId =>
      let entityValues :=
        match mapLookup r.properties "score" with
        | some v => some [(scorePropertyId, pvToString v)]
        | none => none
      let op : OpD := ⟨.createRelation (gen c) fromId toId ranksPropertyId entityValues,
        relationDesc entities r.to' (mapLookup r.properties "score")⟩
      let rec' := processRelations gen emap ranksPropertyId scorePropertyId entities (c + 1) rest
      (op :: rec'.1, rec'.2.1 + 1, rec'.2.2)
    | _, _ => processRelations gen emap ranksPropertyId scorePropertyId entities (c + 1) rest

/-- Models `metadata?.title || 'Tier List Rank'` (useGRC20.ts line 205). -/
def jsOrDefaultName (title : Option String) : String :=
  match title with
  | some t => if t = "" then "Tier List Rank" else t
  | none => "Tier List Rank"

/-- useGRC20.ts `prepareGRC20Edits` (lines 46-241), as a pure function of the
property graph, metadata title, and the fresh-id stream `gen` (modelling
`IdUtils.generate` and SDK-internal id generation). Ids gen 0..3 are the four
assumed well-known properties (name, rank_type, ranks, score); `name:STRING`
and `rank_type:STRING` are pre-seeded in the property cache. -/
def prepareGRC20Edits (gen : ℕ → String) (g : PropertyGraph) (title : Option String) :
    Prepared :=
  let ranksPropertyId := gen 2
  let scorePropertyId := gen 3
  let mc := assignIds gen 4 [] (g.entities.filter (fun e => !isRankListPG e))
  match g.entities.find? isRankListPG with
  | some tl =>
    let tierListGrc20Id := gen mc.2
    let emap := mapSet mc.1 tl.id tierListGrc20Id
    let pv := processProps gen (mc.2 + 1)
      [("name:STRING", gen 0), ("rank_type:STRING", gen 1)] tl.properties
    let entityOp : OpD := ⟨.createEntity tierListGrc20Id pv.1,
      "Create TierList entity \"" ++
        (match mapLookup tl.properties "name" with
          | some v => pvToString v
          | none => "undefined") ++ "\""⟩
    let pr := processRelations gen emap ranksPropertyId scorePropertyId g.entities
      pv.2.2.2 g.relations
    let allOps := pv.2.1 ++ [entityOp] ++ pr.1
    ⟨⟨jsOrDefaultName title, allOps⟩, ⟨allOps.length, 1, pv.2.2.1, pr.2.1⟩⟩
  | none =>
    let pr := processRelations gen mc.1 ranksPropertyId scorePropertyId g.entities
      mc.2 g.relations
    ⟨⟨jsOrDefaultName title, pr.1⟩, ⟨pr.1.length, 0, 0, pr.2.1⟩⟩

def isCreateRelationOp (o : OpD) : Bool :=
  match o.payload with
  | .createRelation .. => true
  | _ => false

def isCreateEntityOp (o : OpD) : Bool :=
  match o.payload with
  | .createEntity .. => true
  | _ => false

def isCreatePropertyOp (o : OpD) : Bool :=
  match o.payload with
  | .createProperty .. => true
  | _ => false

lemma processRelations_count (gen : ℕ → String) (emap : List (String × String))
    (rp sp : String) (ents : List PGEntity) :
    ∀ (c : ℕ) (rels : List PGRelation),
      (processRelations gen emap rp sp ents c rels).2.1
        = rels.countP (fun r =>
            (mapLookup emap r.from').isSome && (mapLookup emap r.to').isSome) := by
  intro c rels
  induction rels generalizing c with
  | nil => rfl
  | cons r rest ih =>
    cases hf : mapLookup emap r.from' with
    | none => simp [processRelations, hf, List.countP_cons, ih (c + 1)]
    | some fid =>
      cases ht : mapLookup emap r.to' with
      | none => simp [processRelations, hf, ht, List.countP_cons, ih (c + 1)]
      | some tid => simp [processRelations, hf, ht, List.countP_cons, ih (c + 1)]

lemma processRelations_ops (gen : ℕ → String) (emap : List (String × String))
    (rp sp : String) (ents : List PGEntity) :
    ∀ (c : ℕ) (rels : List PGRelation),
      (processRelations gen emap rp sp ents c rels).1.length
        = (processRelations gen emap rp sp ents c rels).2.1
      ∧ ∀ op ∈ (processRelations gen emap rp sp ents c rels).1,
          isCreateRelationOp op = true := by
  intro c rels
  induction rels generalizing c with
  | nil => exact ⟨rfl, by intro op h; simp [processRelations] at h⟩
  | cons r rest ih =>
    cases hf : mapLookup emap r.from' with
    | none => simpa [processRelations, hf] using ih (c + 1)
    | some fid =>
      cases ht : mapLookup emap r.to' with
      | none => simpa [processRelations, hf, ht] using ih (c + 1)
      | some tid =>
        refine ⟨by simp [processRelations, hf, ht, (ih (c + 1)).1], ?_⟩
        intro op hop
        simp only [processRelations, hf, ht, List.mem_cons] at hop
        rcases hop with h | h
        · subst h; rfl
        · exact (ih (c + 1)).2 op h

lemma processProps_ops (gen : ℕ → String) :
    ∀ (props : List (String × PValue)) (c : ℕ) (created : List (String × String)),
      (processProps gen c created props).2.1.length = (processProps gen c created props).2.2.1
      ∧ ∀ op ∈ (processProps gen c created props).2.1, isCreatePropertyOp op = true := by
  intro props
  induction props with
  | nil => intro c created; exact ⟨rfl, by intro op h; simp [processProps] at h⟩
  | cons p rest ih =>
    intro c created
    obtain ⟨attrName, attrValue⟩ := p
    cases hlk : mapLookup created (attrName ++ ":" ++ getDataType attrValue) with
    | some pid => simpa [processProps, hlk] using ih c created
    | none =>
      refine ⟨by simp [processProps, hlk, (ih (c + 1) _).1], ?_⟩
      intro op hop
      simp only [processProps, hlk, List.mem_cons] at hop
      rcases hop with h | h
      · subst h; rfl
      · exact (ih (c + 1) _).2 op h

lemma isCreateRelationOp_kinds (op : OpD) (h : isCreateRelationOp op = true) :
    isCreateEntityOp op = false ∧ isCreatePropertyOp op = false := by
  obtain ⟨payload, d⟩ := op
  cases payload <;> simp_all [isCreateRelationOp, isCreateEntityOp, isCreatePropertyOp]

lemma isCreatePropertyOp_kinds (op : OpD) (h : isCreatePropertyOp op = true) :
    isCreateRelationOp op = false ∧ isCreateEntityOp op = false := by
  obtain ⟨payload, d⟩ := op
  cases payload <;> simp_all [isCreateRelationOp, isCreateEntityOp, isCreatePropertyOp]

end GRC20

/-- C5: relations with an endpoint missing from the entity-id remapping table
are skipped: the encoder emits exactly one create-relation operation per fully
mapped relation, counts exactly those in relationOps, never fails, and still
returns a complete batch. -/
theorem C5_encoder_skips_unmapped_relations :
    ∀ (gen : ℕ → String) (g : PropertyGraph) (title : Option String),
      (GRC20.prepareGRC20Edits gen g title).summary.relationOps
        = g.relations.countP (fun r =>
            (mapLookup (GRC20.entityIdMapOf gen g) r.from').isSome
              && (mapLookup (GRC20.entityIdMapOf gen g) r.to').isSome)
      ∧ ((GRC20.prepareGRC20Edits gen g title).edit.ops.countP GRC20.isCreateRelationOp)
        = g.relations.countP (fun r =>
            (mapLookup (GRC20.entityIdMapOf gen g) r.from').isSome
              && (mapLookup (GRC20.entityIdMapOf gen g) r.to').isSome) := by
  intro gen g title
  cases hfind : g.entities.find? GRC20.isRankListPG with
  | none =>
    simp only [GRC20.prepareGRC20Edits, GRC20.entityIdMapOf, hfind]
    refine ⟨GRC20.processRelations_count gen _ _ _ _ _ _, ?_⟩
    have h := GRC20.processRelations_ops gen
      (GRC20.assignIds gen 4 [] (g.entities.filter (fun e => !GRC20.isRankListPG e))).1
      (gen 2) (gen 3) g.entities
      (GRC20.assignIds gen 4 [] (g.entities.filter (fun e => !GRC20.isRankListPG e))).2
      g.relations
    rw [List.countP_eq_length.mpr h.2, h.1]
    exact GRC20.processRelations_count gen _ _ _ _ _ _
  | some tl =>
    simp only [GRC20.prepareGRC20Edits, GRC20.entityIdMapOf, hfind]
    rw [List.countP_append, List.countP_append]
    constructor
    · exact GRC20.processRelations_count gen _ _ _ _ _ _
    · have hprop := GRC20.processProps_ops gen tl.properties
        ((GRC20.assignIds gen 4 [] (g.entities.filter (fun e => !GRC20.isRankListPG e))).2 + 1)
        [("name:STRING", gen 0), ("rank_type:STRING", gen 1)]
      have hz1 : (GRC20.processProps gen
          ((GRC20.assignIds gen 4 [] (g.entities.filter (fun e => !GRC20.isRankListPG e))).2 + 1)
          [("name:STRING", gen 0), ("rank_type:STRING", gen 1)] tl.properties).2.1.countP
            GRC20.isCreateRelationOp = 0 :=
        List.countP_eq_zero.mpr (fun op hop => by
          simp [(GRC20.isCreatePropertyOp_kinds op (hprop.2 op hop)).1])
      have hrel := GRC20.processRelations_ops gen
        (mapSet (GRC20.assignIds gen 4 [] (g.entities.filter (fun e => !GRC20.isRankListPG e))).1
          tl.id (gen (GRC20.assignIds gen 4 []
            (g.entities.filter (fun e => !GRC20.isRankListPG e))).2))
        (gen 2) (gen 3) g.entities
        (GRC20.processProps gen
          ((GRC20.assignIds gen 4 [] (g.entities.filter (fun e => !GRC20.isRankListPG e))).2 + 1)
          [("name:STRING", gen 0), ("rank_type:STRING", gen 1)] tl.properties).2.2.2
        g.relations
      rw [hz1, List.countP_eq_length.mpr hrel.2, hrel.1]
      simpa [GRC20.isCreateRelationOp, List.countP_cons] using GRC20.processRelations_count gen
        (mapSet (GRC20.assignIds gen 4 [] (g.entities.filter (fun e => !GRC20.isRankListPG e))).1
          tl.id (gen (GRC20.assignIds gen 4 []
            (g.entities.filter (fun e => !GRC20.isRankListPG e))).2))
        (gen 2) (gen 3) g.entities
        (GRC20.processProps gen
          ((GRC20.assignIds gen 4 [] (g.entities.filter (fun e => !GRC20.isRankListPG e))).2 + 1)
          [("name:STRING", gen 0), ("rank_type:STRING", gen 1)] tl.properties).2.2.2
        g.relations

/-- Concrete id stream standing in for `IdUtils.generate`. -/
def sampleGen : ℕ → String := fun n => "g" ++ toString n

/-- The spec's encoder example: one rank-list entity named "Movies" and two
scored relations (scores 6 and 3) to entities present in the graph. -/
def movieGraph : PropertyGraph :=
  ⟨[⟨"L", [("name", PValue.str "Movies"), ("rank_type", PValue.str "weighted_rank")]⟩,
    ⟨"A", [("name", PValue.str "Alpha")]⟩,
    ⟨"B", [("name", PValue.str "Beta")]⟩],
  [⟨"r1", "L", "A", [("score", PValue.num 6)]⟩,
    ⟨"r2", "L", "B", [("score", PValue.num 3)]⟩]⟩

/-- C4 counterexample: on the "Movies" example graph with no title supplied,
the batch name is the constant "Tier List Rank", not the rank-list's name
"Movies" as the claim states (the operation counts hold: entityOps = 1 and
relationOps = 2). -/
theorem C4_counterexample :
    (GRC20.prepareGRC20Edits sampleGen movieGraph none).edit.name = "Tier List Rank"
    ∧ "Tier List Rank" ≠ "Movies"
    ∧ (GRC20.prepareGRC20Edits sampleGen movieGraph none).summary.entityOps = 1
    ∧ (GRC20.prepareGRC20Edits sampleGen movieGraph none).summary.relationOps = 2 := by
  refine ⟨rfl, by decide, rfl, rfl⟩

/-- C4 (amended): encode on the "Movies" example graph yields
summary.entityOps = 1 and summary.relationOps = 2, and the batch name equals
the supplied (non-empty) title, falling back to the constant
"Tier List Rank" — not the rank-list's name — when no title is supplied. -/
theorem C4_encoder_summary_and_name :
    ∀ t : String, t ≠ "" →
      ((GRC20.prepareGRC20Edits sampleGen movieGraph (some t)).summary.entityOps = 1
        ∧ (GRC20.prepareGRC20Edits sampleGen movieGraph (some t)).summary.relationOps = 2
        ∧ (GRC20.prepareGRC20Edits sampleGen movieGraph (some t)).edit.name = t)
      ∧ ((GRC20.prepareGRC20Edits sampleGen movieGraph none).summary.entityOps = 1
        ∧ (GRC20.prepareGRC20Edits sampleGen movieGraph none).summary.relationOps = 2
        ∧ (GRC20.prepareGRC20Edits sampleGen movieGraph none).edit.name = "Tier List Rank") := by
  intro t ht
  refine ⟨⟨rfl, rfl, ?_⟩, rfl, rfl, rfl⟩
  have hname : (GRC20.prepareGRC20Edits sampleGen movieGraph (some t)).edit.name
      = GRC20.jsOrDefaultName (some t) := rfl
  rw [hname]
  simp [GRC20.jsOrDefaultName, ht]

/-- Witness for C4 (amended) at the concrete title "My Ranking". -/
theorem C4_witness :
    (GRC20.prepareGRC20Edits sampleGen movieGraph (some "My Ranking")).summary.entityOps = 1
    ∧ (GRC20.prepareGRC20Edits sampleGen movieGraph (some "My Ranking")).summary.relationOps = 2
    ∧ (GRC20.prepareGRC20Edits sampleGen movieGraph (some "My Ranking")).edit.name
        = "My Ranking" := by
  exact (C4_encoder_summary_and_name "My Ranking" (by decide)).1

/-- C10: when no entity carries rank_type = "weighted_rank", encode completes
with entityOps = 0 and propertyOps = 0: the create-entity branch is skipped
and no create-property (or create-entity) operation appears in the batch. -/
theorem C10_no_ranklist_no_entity_or_property_ops :
    ∀ (gen : ℕ → String) (g : PropertyGraph) (title : Option String),
      (∀ e ∈ g.entities, GRC20.isRankListPG e = false) →
      (GRC20.prepareGRC20Edits gen g title).summary.entityOps = 0
      ∧ (GRC20.prepareGRC20Edits gen g title).summary.propertyOps = 0
      ∧ (GRC20.prepareGRC20Edits gen g title).edit.ops.countP GRC20.isCreateEntityOp = 0
      ∧ (GRC20.prepareGRC20Edits gen g title).edit.ops.countP GRC20.isCreatePropertyOp = 0 := by
  intro gen g title h
  have hfind : g.entities.find? GRC20.isRankListPG = none :=
    List.find?_eq_none.mpr (fun e he => by simp [h e he])
  simp only [GRC20.prepareGRC20Edits, hfind]
  have hops := GRC20.processRelations_ops gen
    (GRC20.assignIds gen 4 [] (g.entities.filter (fun e => !GRC20.isRankListPG e))).1
    (gen 2) (gen 3) g.entities
    (GRC20.assignIds gen 4 [] (g.entities.filter (fun e => !GRC20.isRankListPG e))).2
    g.relations
  refine ⟨by trivial, by trivial, ?_, ?_⟩
  · exact List.countP_eq_zero.mpr (fun op hop => by
      simp [(GRC20.isCreateRelationOp_kinds op (hops.2 op hop)).1])
  · exact List.countP_eq_zero.mpr (fun op hop => by
      simp [(GRC20.isCreateRelationOp_kinds op (hops.2 op hop)).2])

/-- Witness for C10: a graph holding a single plain item entity and one
relation encodes with zero entity and property operations. -/
theorem C10_witness :
    (GRC20.prepareGRC20Edits sampleGen
      ⟨[⟨"A", [("name", PValue.str "Alpha")]⟩], [⟨"r1", "L", "A", [("score", PValue.num 6)]⟩]⟩
      none).summary.entityOps = 0
    ∧ (GRC20.prepareGRC20Edits sampleGen
      ⟨[⟨"A", [("name", PValue.str "Alpha")]⟩], [⟨"r1", "L", "A", [("score", PValue.num 6)]⟩]⟩
      none).summary.propertyOps = 0 := by
  have h := C10_no_ranklist_no_entity_or_property_ops sampleGen
    ⟨[⟨"A", [("name", PValue.str "Alpha")]⟩], [⟨"r1", "L", "A", [("score", PValue.num 6)]⟩]⟩
    none (by decide)
  exact ⟨h.1, h.2.1⟩

/-- C8: free-mode score validation: a non-empty input that does not parse to
a number, or parses to a negative number, leaves the state unchanged (silent
no-op); a numeric value >= 0 overwrites the item score with that value. -/
theorem C8_free_score_validation :
    ∀ (st : Free.State) (itemId v : String),
      v ≠ "" →
      (jsParseFloat v = none → Free.handleScoreChange itemId v st = st)
      ∧ (∀ q, jsParseFloat v = some q → q < 0 → Free.handleScoreChange itemId v st = st)
      ∧ (∀ q, jsParseFloat v = some q → 0 ≤ q →
          (Free.handleScoreChange itemId v st).itemScores = mapSet st.itemScores itemId q
          ∧ mapLookup (Free.handleScoreChange itemId v st).itemScores itemId = some q
          ∧ (Free.handleScoreChange itemId v st).rankedItemIds = st.rankedItemIds) := by
  intro st itemId v hv
  refine ⟨?_, ?_, ?_⟩
  · intro hn
    simp [Free.handleScoreChange, hv, hn]
  · intro q hq hneg
    simp [Free.handleScoreChange, hv, hq, not_le.mpr hneg]
  · intro q hq hpos
    have hge : q ≥ 0 := hpos
    refine ⟨?_, ?_, ?_⟩
    · simp [Free.handleScoreChange, hv, hq, hge]
    · simp [Free.handleScoreChange, hv, hq, hge, mapLookup_mapSet_self]
    · simp [Free.handleScoreChange, hv, hq, hge]

/-- Witness for C8: on a concrete state, input "abc" (NaN) and "-3" are
no-ops, while "2.5" overwrites the score with 2.5. -/
theorem C8_witness :
    Free.handleScoreChange "a" "abc" ⟨[("a", 7)], ["a"]⟩ = ⟨[("a", 7)], ["a"]⟩
    ∧ Free.handleScoreChange "a" "-3" ⟨[("a", 7)], ["a"]⟩ = ⟨[("a", 7)], ["a"]⟩
    ∧ (Free.handleScoreChange "a" "2.5" ⟨[("a", 7)], ["a"]⟩).itemScores = [("a", 5/2)] := by
  refine ⟨(C8_free_score_validation ⟨[("a", 7)], ["a"]⟩ "a" "abc" (by decide)).1 (by decide),
    (C8_free_score_validation ⟨[("a", 7)], ["a"]⟩ "a" "-3" (by decide)).2.1 (-3) (by decide)
      (by norm_num),
    ?_⟩
  have h := ((C8_free_score_validation ⟨[("a", 7)], ["a"]⟩ "a" "2.5" (by decide)).2.2
    (5/2) (by decide) (by norm_num)).1
  rw [h]
  decide

/-- C1: slider-mode midpoint law. Dropping a dragged item onto a distinct
ranked target whose predecessor in the descending order is distinct from the
dragged item assigns round((above + below) / 2, 2); dropping onto the first
item assigns round((100 + below) / 2, 2); dropping into the ranked area (not
onto an item) assigns round((1 + min existing score) / 2, 2), or exactly 1
when nothing is placed yet. -/
theorem C1_slider_midpoint_law :
    (∀ (items : List Item) (st : Slider.State) (dragged target ia : Item) (i : ℕ)
        (above below : ℚ),
      ((Slider.sortedRanked items st).map Item.id).Nodup →
      dragged.id ≠ target.id →
      (Slider.sortedRanked items st).get? i = some ia →
      (Slider.sortedRanked items st).get? (i + 1) = some target →
      ia.id ≠ dragged.id →
      mapLookup st.itemScores ia.id = some above →
      mapLookup st.itemScores target.id = some below →
      mapLookup (Slider.handleDropOnItem items dragged target st).itemScores dragged.id
        = some (round2 ((above + below) / 2)))
    ∧ (∀ (items : List Item) (st : Slider.State) (dragged target : Item) (below : ℚ),
      dragged.id ≠ target.id →
      (Slider.sortedRanked items st).get? 0 = some target →
      mapLookup st.itemScores target.id = some below →
      mapLookup (Slider.handleDropOnItem items dragged target st).itemScores dragged.id
        = some (round2 ((100 + below) / 2)))
    ∧ (∀ (dragged : Item) (st : Slider.State),
      dragged.id ∉ st.rankedItemIds →
      mapLookup st.itemScores dragged.id = none →
      (st.itemScores = [] →
        mapLookup (Slider.handleDropToRanked dragged st).itemScores dragged.id = some 1)
      ∧ (st.itemScores ≠ [] →
        mapLookup (Slider.handleDropToRanked dragged st).itemScores dragged.id
          = some (round2 ((1 + jsMin (st.itemScores.map Prod.snd)) / 2)))) := by
  refine ⟨?_, ?_, ?_⟩
  · intro items st dragged target ia i above below hnd hne hi hj hia ha hb
    rw [Slider.dropOnItem_mid items st dragged target ia i above below hnd hne hi hj hia ha hb]
    exact mapLookup_mapSet_self _ _ _
  · intro items st dragged target below hne h0 hb
    rw [Slider.dropOnItem_top items st dragged target below hne h0 hb]
    exact mapLookup_mapSet_self _ _ _
  · intro dragged st hr hs
    constructor
    · intro hemp
      rw [Slider.dropToRanked_new dragged st hr hs, hemp]
      simpa using mapLookup_mapSet_self ([] : List (String × ℚ)) dragged.id 1
    · intro hne
      rw [Slider.dropToRanked_new dragged st hr hs]
      have hlen : (st.itemScores.map Prod.snd).length > 0 := by
        cases h : st.itemScores with
        | nil => exact absurd h hne
        | cons p rest => simp [h]
      rw [if_pos hlen]
      exact mapLookup_mapSet_self _ _ _

/-- Witness for C1 on the spec's own example: scores [80, 50, 20] descending;
inserting between 80 and 50 yields 65.00, at the very top 90.00; a drop into
the area yields round((1 + 20) / 2, 2) = 10.5, and 1.00 on an empty board. -/
theorem C1_witness :
    mapLookup (Slider.handleDropOnItem
      [⟨"a", "A", "x"⟩, ⟨"b", "B", "x"⟩, ⟨"c", "C", "x"⟩, ⟨"d", "D", "x"⟩]
      ⟨"d", "D", "x"⟩ ⟨"b", "B", "x"⟩
      ⟨[("a", 80), ("b", 50), ("c", 20)], ["a", "b", "c"]⟩).itemScores "d" = some 65
    ∧ mapLookup (Slider.handleDropOnItem
      [⟨"a", "A", "x"⟩, ⟨"b", "B", "x"⟩, ⟨"c", "C", "x"⟩, ⟨"d", "D", "x"⟩]
      ⟨"d", "D", "x"⟩ ⟨"a", "A", "x"⟩
      ⟨[("a", 80), ("b", 50), ("c", 20)], ["a", "b", "c"]⟩).itemScores "d" = some 90
    ∧ mapLookup (Slider.handleDropToRanked ⟨"d", "D", "x"⟩
      ⟨[("a", 80), ("b", 50), ("c", 20)], ["a", "b", "c"]⟩).itemScores "d" = some (21/2)
    ∧ mapLookup (Slider.handleDropToRanked ⟨"d", "D", "x"⟩ ⟨[], []⟩).itemScores "d" = some 1 := by
  refine ⟨?_, ?_, ?_, ?_⟩
  · have h := C1_slider_midpoint_law.1
      [⟨"a", "A", "x"⟩, ⟨"b", "B", "x"⟩, ⟨"c", "C", "x"⟩, ⟨"d", "D", "x"⟩]
      ⟨[("a", 80), ("b", 50), ("c", 20)], ["a", "b", "c"]⟩
      ⟨"d", "D", "x"⟩ ⟨"b", "B", "x"⟩ ⟨"a", "A", "x"⟩ 0 80 50
      (by decide) (by decide) (by decide) (by decide) (by decide) (by decide) (by decide)
    exact h.trans (by decide)
  · have h := C1_slider_midpoint_law.2.1
      [⟨"a", "A", "x"⟩, ⟨"b", "B", "x"⟩, ⟨"c", "C", "x"⟩, ⟨"d", "D", "x"⟩]
      ⟨[("a", 80), ("b", 50), ("c", 20)], ["a", "b", "c"]⟩
      ⟨"d", "D", "x"⟩ ⟨"a", "A", "x"⟩ 80
      (by decide) (by decide) (by decide)
    exact h.trans (by decide)
  · have h := (C1_slider_midpoint_law.2.2 ⟨"d", "D", "x"⟩
      ⟨[("a", 80), ("b", 50), ("c", 20)], ["a", "b", "c"]⟩
      (by decide) (by decide)).2 (by decide)
    exact h.trans (by decide)
  · exact (C1_slider_midpoint_law.2.2 ⟨"d", "D", "x"⟩ ⟨[], []⟩
      (by decide) (by decide)).1 rfl

/-- C7: slider-mode no-op drops: dropping a ranked item onto itself, or onto
the target it already immediately precedes in the descending score order,
leaves the whole slider state (scores and placed set) unchanged. -/
theorem C7_slider_noop_drop :
    (∀ (items : List Item) (st : Slider.State) (dragged target : Item),
      dragged.id = target.id → Slider.handleDropOnItem items dragged target st = st)
    ∧ (∀ (items : List Item) (st : Slider.State) (dragged target d' : Item) (i : ℕ),
      ((Slider.sortedRanked items st).map Item.id).Nodup →
      (Slider.sortedRanked items st).get? i = some d' →
      d'.id = dragged.id →
      (Slider.sortedRanked items st).get? (i + 1) = some target →
      Slider.handleDropOnItem items dragged target st = st) := by
  refine ⟨?_, ?_⟩
  · intro items st dragged target h
    simp [Slider.handleDropOnItem, h]
  · intro items st dragged target d' i hnd hi hid hj
    exact Slider.dropOnItem_noop items st dragged target d' i hnd hi hid hj

/-- Witness for C7: dropping "b" onto itself and dropping "a" onto "b" (which
"a" already precedes) both leave the concrete state unchanged. -/
theorem C7_witness :
    Slider.handleDropOnItem
      [⟨"a", "A", "x"⟩, ⟨"b", "B", "x"⟩, ⟨"c", "C", "x"⟩]
      ⟨"b", "B", "x"⟩ ⟨"b", "B", "x"⟩
      ⟨[("a", 80), ("b", 50), ("c", 20)], ["a", "b", "c"]⟩
      = ⟨[("a", 80), ("b", 50), ("c", 20)], ["a", "b", "c"]⟩
    ∧ Slider.handleDropOnItem
      [⟨"a", "A", "x"⟩, ⟨"b", "B", "x"⟩, ⟨"c", "C", "x"⟩]
      ⟨"a", "A", "x"⟩ ⟨"b", "B", "x"⟩
      ⟨[("a", 80), ("b", 50), ("c", 20)], ["a", "b", "c"]⟩
      = ⟨[("a", 80), ("b", 50), ("c", 20)], ["a", "b", "c"]⟩ := by
  refine ⟨C7_slider_noop_drop.1 _ _ _ _ rfl,
    C7_slider_noop_drop.2
      [⟨"a", "A", "x"⟩, ⟨"b", "B", "x"⟩, ⟨"c", "C", "x"⟩]
      ⟨[("a", 80), ("b", 50), ("c", 20)], ["a", "b", "c"]⟩
      ⟨"a", "A", "x"⟩ ⟨"b", "B", "x"⟩ ⟨"a", "A", "x"⟩ 0
      (by decide) (by decide) (by decide) (by decide)⟩

end
